import Mathlib

/-!
# geodot-plugin: the `geodata.cpp` resource classes

A shallow embedding of `src/src/geodata.cpp` (`GeoDataset`, `GeoFeatureLayer`,
`GeoRasterLayer`, `PyramidGeoRasterLayer`).

Conventions of the embedding:

* A C++ pointer is an `Option`; `nullptr` is `none`.
* A member function that dereferences a pointer without a null check returns
  an `Option`: `none` stands for the dereference of a null pointer.
* `double` arguments are only forwarded by `geodata.cpp`; they are rationals here.
* `int` arguments are only forwarded or stored; they are integers here.
* A Godot `Array` is the list of its entries, `push_back` appends at the end.
* A `std::list<Feature *>` is the list of the feature objects pointed to (the
  source reads every entry without a null check).
* `Godot::print_error` is an output: the `get_image` members return the list of
  the errors they print next to the image.
* The extractor libraries (`VectorExtractor`, `RasterTileExtractor`,
  `NativeDataset::get_subdataset`) are not part of `geodata.cpp`; the member
  functions take them as parameters.
-/

set_option autoImplicit false

namespace Geodot

/-! ## Types declared outside `geodata.cpp` -/

/-- Coordinates and lengths (`double` in the source, forwarded unchanged). -/
abbrev Coord := ℚ

/-- Modelled from the spec: the geometry of a stored vector record, one of
none / point / line (vertex sequence) / polygon (ring sequence). -/
inductive Geometry where
  | none
  | point (x y : Coord)
  | line (vertices : List (Coord × Coord))
  | polygon (rings : List (List (Coord × Coord)))
  deriving DecidableEq

/-- Modelled from the spec: a raw feature record of the I/O library. -/
structure OGRFeature where
  fid : Nat
  geometry : Geometry
  deriving DecidableEq

/-- Modelled from the spec: a vector layer of the I/O library, its records in
storage order. -/
structure OGRLayer where
  features : List OGRFeature
  deriving DecidableEq

/-- Modelled from the spec: an opened dataset of the I/O library with its named
vector layers. -/
structure GDALDataset where
  layers : List (String × OGRLayer)
  deriving DecidableEq

/-- The wrapper around a raw dataset handle (`dataset->dataset` in the source). -/
structure NativeDataset where
  dataset : Option GDALDataset
  deriving DecidableEq

/-- The wrapper around a raw layer handle (`layer->layer` in the source). -/
structure NativeLayer where
  layer : Option OGRLayer
  deriving DecidableEq

/-- The enumerators `Feature::geometry_type` is compared with in the source;
`OTHER` stands for any value that is none of the four. -/
inductive GeometryType where
  | NONE
  | POINT
  | LINE
  | POLYGON
  | OTHER (tag : Nat)
  deriving DecidableEq

/-- The dynamic class of a raw feature object, the target of `dynamic_cast`. -/
inductive FeatureClass where
  | Feature
  | PointFeature
  | LineFeature
  | PolygonFeature
  deriving DecidableEq

/-- A raw feature as produced by the vector extractor: the `geometry_type`
field the source reads, the dynamic class of the object, and its record. -/
structure Feature where
  geometry_type : GeometryType
  cls : FeatureClass
  feature : OGRFeature
  deriving DecidableEq

/-- Modelled from the spec: an extracted raster tile, a dense pixel buffer of
`pixel_size` by `pixel_size` samples. -/
structure GeoRaster where
  pixel_size : Nat
  data : List Int
  deriving DecidableEq

/-- The functions of `VectorExtractor` called by `geodata.cpp`. -/
structure VectorExtractor where
  open_dataset : String → Option NativeDataset
  get_layer_from_dataset : Option GDALDataset → String → Option NativeLayer
  get_features : Option OGRLayer → List Feature
  get_features_near_position : Option OGRLayer → Coord → Coord → Coord → Int → List Feature

/-- The functions of `RasterTileExtractor` called by `geodata.cpp`. -/
structure RasterTileExtractor where
  get_tile_from_dataset :
    Option GDALDataset → Coord → Coord → Coord → Int → Int → Option GeoRaster
  get_raster_from_pyramid :
    String → String → Coord → Coord → Coord → Int → Int → Option GeoRaster

/-- The result of `dynamic_cast<C *>(raw_feature)`: the same object when its
dynamic class is `C` (or derives from it), a null pointer otherwise. -/
def dynamic_cast (target : FeatureClass) (raw_feature : Feature) : Option Feature :=
  if target = FeatureClass.Feature ∨ raw_feature.cls = target then some raw_feature else none

/-! ## Godot-side objects -/

/-- The Godot classes of the feature wrappers pushed into the result arrays. -/
inductive GeoFeatureClass where
  | GeoFeature
  | GeoPoint
  | GeoLine
  | GeoPolygon
  deriving DecidableEq

/-- A feature wrapper object: its Godot class and the raw feature pointer it holds. -/
structure GeoFeature where
  cls : GeoFeatureClass
  gdal_feature : Option Feature
  deriving DecidableEq

/-- The object `C::_new()` for a feature wrapper class `C`: no raw feature yet. -/
def GeoFeature._new (cls : GeoFeatureClass) : GeoFeature :=
  { cls := cls, gdal_feature := none }

/-- The member `set_gdal_feature`. -/
def GeoFeature.set_gdal_feature (self : GeoFeature) (new_feature : Option Feature) : GeoFeature :=
  { self with gdal_feature := new_feature }

/-- A Godot `Array` of feature wrappers. -/
abbrev GodotArray := List GeoFeature

/-- The member `Array::push_back`. -/
def GodotArray.push_back (self : GodotArray) (value : GeoFeature) : GodotArray :=
  self ++ [value]

/-- A `GeoImage`: the raster and interpolation type given to `set_raster`, if any. -/
structure GeoImage where
  raster : Option GeoRaster
  interpolation : Option Int
  deriving DecidableEq

/-- The object `GeoImage::_new()`: no raster set. -/
def GeoImage._new : GeoImage :=
  { raster := none, interpolation := none }

/-- The member `GeoImage::set_raster`. -/
def GeoImage.set_raster (_self : GeoImage) (raster : GeoRaster) (interpolation_type : Int) :
    GeoImage :=
  { raster := some raster, interpolation := some interpolation_type }

/-- One call of `Godot::print_error`. -/
structure PrintedError where
  description : String
  function : String
  file : String
  line : Nat
  deriving DecidableEq

/-! ## `GeoDataset` -/

/-- The class `GeoDataset`: its `dataset` member. -/
structure GeoDataset where
  dataset : Option NativeDataset
  deriving DecidableEq

/-- The class `GeoFeatureLayer`: its `layer` member. -/
structure GeoFeatureLayer where
  layer : Option NativeLayer
  deriving DecidableEq

/-- The class `GeoRasterLayer`: its `dataset` member. -/
structure GeoRasterLayer where
  dataset : Option NativeDataset
  deriving DecidableEq

/-- The class `PyramidGeoRasterLayer`, a `GeoRasterLayer` with a pyramid base
path and a file ending. -/
structure PyramidGeoRasterLayer extends GeoRasterLayer where
  path : String
  ending : String
  deriving DecidableEq

/-- The member `GeoDataset::is_valid`, lines 25-33. -/
def GeoDataset.is_valid (self : GeoDataset) : Option Bool :=
  match self.dataset with
  | none => none
  | some dataset =>
    if dataset.dataset = none then
      some false
    else
      some true

/-- The member `GeoDataset::load_from_file`, lines 51-53. -/
def GeoDataset.load_from_file (ve : VectorExtractor) (_self : GeoDataset) (file_path : String) :
    GeoDataset :=
  { dataset := ve.open_dataset file_path }

/-- The member `GeoDataset::set_native_dataset`, lines 55-57. -/
def GeoDataset.set_native_dataset (_self : GeoDataset) (new_dataset : Option NativeDataset) :
    GeoDataset :=
  { dataset := new_dataset }

/-- The object `GeoFeatureLayer::_new()`; its `layer` member is assigned by
`set_native_layer` before it is read. -/
def GeoFeatureLayer._new : GeoFeatureLayer :=
  { layer := none }

/-- The member `GeoFeatureLayer::set_native_layer`, lines 134-136. -/
def GeoFeatureLayer.set_native_layer (_self : GeoFeatureLayer) (new_layer : Option NativeLayer) :
    GeoFeatureLayer :=
  { layer := new_layer }

/-- The object `GeoRasterLayer::_new()`; its `dataset` member is assigned by
`set_native_dataset` before it is read. -/
def GeoRasterLayer._new : GeoRasterLayer :=
  { dataset := none }

/-- The member `GeoRasterLayer::set_native_dataset`, lines 198-200. -/
def GeoRasterLayer.set_native_dataset (_self : GeoRasterLayer)
    (new_dataset : Option NativeDataset) : GeoRasterLayer :=
  { dataset := new_dataset }

/-- The member `GeoDataset::get_raster_layer`, lines 35-41; `get_subdataset` is the member
`NativeDataset::get_subdataset`. -/
def GeoDataset.get_raster_layer (get_subdataset : NativeDataset → String → Option NativeDataset)
    (self : GeoDataset) (name : String) : Option GeoRasterLayer :=
  match self.dataset with
  | none => none
  | some dataset =>
    let raster_layer := GeoRasterLayer._new
    some (raster_layer.set_native_dataset (get_subdataset dataset name))

/-- The member `GeoDataset::get_feature_layer`, lines 43-49. -/
def GeoDataset.get_feature_layer (ve : VectorExtractor) (self : GeoDataset) (name : String) :
    Option GeoFeatureLayer :=
  match self.dataset with
  | none => none
  | some dataset =>
    let feature_layer := GeoFeatureLayer._new
    some (feature_layer.set_native_layer (ve.get_layer_from_dataset dataset.dataset name))

/-! ## `GeoFeatureLayer` -/

/-- The member `GeoFeatureLayer::is_valid`, lines 70-73. -/
def GeoFeatureLayer.is_valid (_self : GeoFeatureLayer) : Bool :=
  true

/-- The body of the loop of `GeoFeatureLayer::get_all_features`, lines 81-84. -/
def GeoFeatureLayer.get_all_features_body (geofeatures : GodotArray) (gdal_feature : Feature) :
    GodotArray :=
  let geofeature := GeoFeature._new GeoFeatureClass.GeoFeature
  let geofeature := geofeature.set_gdal_feature (some gdal_feature)
  geofeatures.push_back geofeature

/-- The member `GeoFeatureLayer::get_all_features`, lines 75-88. -/
def GeoFeatureLayer.get_all_features (ve : VectorExtractor) (self : GeoFeatureLayer) :
    Option GodotArray :=
  let geofeatures : GodotArray := []
  match self.layer with
  | none => none
  | some layer =>
    let gdal_features := ve.get_features layer.layer
    some (gdal_features.foldl GeoFeatureLayer.get_all_features_body geofeatures)

/-- The body of the loop of `GeoFeatureLayer::get_features_near_position`,
lines 96-123. -/
def GeoFeatureLayer.get_features_near_position_body (features : GodotArray)
    (raw_feature : Feature) : GodotArray :=
  if raw_feature.geometry_type = GeometryType.NONE then
    let feature := GeoFeature._new GeoFeatureClass.GeoFeature
    let feature := feature.set_gdal_feature (some raw_feature)
    features.push_back feature
  else if raw_feature.geometry_type = GeometryType.POINT then
    let point := GeoFeature._new GeoFeatureClass.GeoPoint
    let point_feature := dynamic_cast FeatureClass.PointFeature raw_feature
    let point := point.set_gdal_feature point_feature
    features.push_back point
  else if raw_feature.geometry_type = GeometryType.LINE then
    let line := GeoFeature._new GeoFeatureClass.GeoLine
    let line_feature := dynamic_cast FeatureClass.LineFeature raw_feature
    let line := line.set_gdal_feature line_feature
    features.push_back line
  else if raw_feature.geometry_type = GeometryType.POLYGON then
    let polygon := GeoFeature._new GeoFeatureClass.GeoPolygon
    let polygon_feature := dynamic_cast FeatureClass.PolygonFeature raw_feature
    let polygon := polygon.set_gdal_feature polygon_feature
    features.push_back polygon
  else
    features

/-- The member `GeoFeatureLayer::get_features_near_position`, lines 90-127. -/
def GeoFeatureLayer.get_features_near_position (ve : VectorExtractor) (self : GeoFeatureLayer)
    (pos_x pos_y radius : Coord) (max_features : Int) : Option GodotArray :=
  let features : GodotArray := []
  match self.layer with
  | none => none
  | some layer =>
    let raw_features := ve.get_features_near_position layer.layer pos_x pos_y radius max_features
    some (raw_features.foldl GeoFeatureLayer.get_features_near_position_body features)

/-- The member `GeoFeatureLayer::crop_lines_to_square`, lines 129-132. -/
def GeoFeatureLayer.crop_lines_to_square (_self : GeoFeatureLayer)
    (_top_left_x _top_left_y _size_meters : Coord) (_max_lines : Int) : GodotArray :=
  []

/-! ## `GeoRasterLayer` and `PyramidGeoRasterLayer` -/

/-- The call of `Godot::print_error` in both `get_image` members. -/
def no_valid_data_error : PrintedError :=
  { description := "No valid data was available for the requested path and position!"
    function := "Geodot::get_image"
    file := "geodot.cpp"
    line := 26 }

/-- The member `GeoRasterLayer::is_valid`, lines 152-155. -/
def GeoRasterLayer.is_valid (_self : GeoRasterLayer) : Bool :=
  true

/-- The member `GeoRasterLayer::get_image`, lines 157-173: the returned image and the
errors printed. -/
def GeoRasterLayer.get_image (rte : RasterTileExtractor) (self : GeoRasterLayer)
    (top_left_x top_left_y size_meters : Coord) (img_size interpolation_type : Int) :
    Option (GeoImage × List PrintedError) :=
  let image := GeoImage._new
  match self.dataset with
  | none => none
  | some dataset =>
    match rte.get_tile_from_dataset dataset.dataset top_left_x top_left_y size_meters img_size
        interpolation_type with
    | none => some (image, [no_valid_data_error])
    | some raster => some (image.set_raster raster interpolation_type, [])

/-- The member `PyramidGeoRasterLayer::is_valid`, lines 175-178. -/
def PyramidGeoRasterLayer.is_valid (_self : PyramidGeoRasterLayer) : Bool :=
  true

/-- The member `PyramidGeoRasterLayer::get_image`, lines 180-196: the returned image and
the errors printed. -/
def PyramidGeoRasterLayer.get_image (rte : RasterTileExtractor) (self : PyramidGeoRasterLayer)
    (top_left_x top_left_y size_meters : Coord) (img_size interpolation_type : Int) :
    GeoImage × List PrintedError :=
  let image := GeoImage._new
  match rte.get_raster_from_pyramid self.path self.ending top_left_x top_left_y size_meters
      img_size interpolation_type with
  | none => (image, [no_valid_data_error])
  | some raster => (image.set_raster raster interpolation_type, [])

/-- The member `PyramidGeoRasterLayer::set_pyramid_base`, lines 208-210. -/
def PyramidGeoRasterLayer.set_pyramid_base (self : PyramidGeoRasterLayer) (path : String) :
    PyramidGeoRasterLayer :=
  { self with path := path }

/-- The member `PyramidGeoRasterLayer::set_file_ending`, lines 212-214. -/
def PyramidGeoRasterLayer.set_file_ending (self : PyramidGeoRasterLayer) (ending : String) :
    PyramidGeoRasterLayer :=
  { self with ending := ending }

/-! ## The vector extractor as the specification describes it -/

/-- Squared distance of two positions. -/
def dist_sq (p q : Coord × Coord) : Coord :=
  (p.1 - q.1) ^ 2 + (p.2 - q.2) ^ 2

/-- Whether the position `p` lies in the disc of radius `r` around `c`. -/
def in_disc (c : Coord × Coord) (r : Coord) (p : Coord × Coord) : Bool :=
  decide (0 ≤ r ∧ dist_sq p c ≤ r ^ 2)

/-- The position of the segment from `a` to `b` that is closest to `c`. -/
def closest_on_segment (a b c : Coord × Coord) : Coord × Coord :=
  if dist_sq a b = 0 then a
  else
    let t := max 0 (min 1
      (((c.1 - a.1) * (b.1 - a.1) + (c.2 - a.2) * (b.2 - a.2)) / dist_sq a b))
    (a.1 + t * (b.1 - a.1), a.2 + t * (b.2 - a.2))

/-- Whether the vertex sequence `vs`, read as a chain of segments, meets the
disc of radius `r` around `c`. -/
def path_meets_disc (c : Coord × Coord) (r : Coord) : List (Coord × Coord) → Bool
  | [] => false
  | [p] => in_disc c r p
  | p :: q :: rest => in_disc c r (closest_on_segment p q c) || path_meets_disc c r (q :: rest)

/-- The ring `ring` with its first vertex repeated at the end. -/
def close_ring (ring : List (Coord × Coord)) : List (Coord × Coord) :=
  match ring with
  | [] => []
  | p :: rest => p :: rest ++ [p]

/-- Whether the horizontal ray from `c` to the right crosses the segment from
`a` to `b`. -/
def ray_crosses (c a b : Coord × Coord) : Bool :=
  (decide (c.2 < a.2) != decide (c.2 < b.2)) &&
    decide (c.1 < a.1 + (c.2 - a.2) * (b.1 - a.1) / (b.2 - a.2))

/-- The number of segments of the chain `vs` the ray from `c` crosses. -/
def ray_crossings (c : Coord × Coord) : List (Coord × Coord) → Nat
  | p :: q :: rest => (if ray_crosses c p q then 1 else 0) + ray_crossings c (q :: rest)
  | _ => 0

/-- Whether `c` lies inside the polygon with the rings `rings` (even-odd rule). -/
def inside_rings (c : Coord × Coord) (rings : List (List (Coord × Coord))) : Bool :=
  ((rings.map fun ring => ray_crossings c (close_ring ring)).sum % 2 == 1)

/-- Modelled from the spec: "geometry is within distance `r` of (x, y)", that
is, the geometry meets the disc of radius `radius` centered at (x, y). The
None variant has no geometry and is within no distance. -/
def Geometry.within_distance (g : Geometry) (x y r : Coord) : Bool :=
  match g with
  | Geometry.none => false
  | Geometry.point px py => in_disc (x, y) r (px, py)
  | Geometry.line vertices => path_meets_disc (x, y) r vertices
  | Geometry.polygon rings =>
    decide (0 ≤ r) &&
      (inside_rings (x, y) rings || rings.any fun ring => path_meets_disc (x, y) r (close_ring ring))

/-- Modelled from the spec: the typed feature the query engine creates for a
stored record; the geometry variant is fixed at construction. -/
def make_feature (record : OGRFeature) : Feature :=
  match record.geometry with
  | Geometry.none =>
    { geometry_type := GeometryType.NONE, cls := FeatureClass.Feature, feature := record }
  | Geometry.point _ _ =>
    { geometry_type := GeometryType.POINT, cls := FeatureClass.PointFeature, feature := record }
  | Geometry.line _ =>
    { geometry_type := GeometryType.LINE, cls := FeatureClass.LineFeature, feature := record }
  | Geometry.polygon _ =>
    { geometry_type := GeometryType.POLYGON, cls := FeatureClass.PolygonFeature,
      feature := record }

/-- Modelled from the spec: the radius filter of `features_near_position`; a
record without geometry is included. -/
def near_or_none (x y r : Coord) (record : OGRFeature) : Bool :=
  record.geometry = Geometry.none || record.geometry.within_distance x y r

/-- Modelled from the spec: `VectorExtractor` (its sources are not in
`geodata.cpp`), over the store `files` of datasets that can be opened.
`open(path)` yields an invalid dataset for a file that cannot be opened,
`get_layer` resolves a vector layer by name and yields an invalid layer for an
unknown name, `all_features` scans the layer in storage order,
`features_near_position` returns up to `max_count` features whose geometry
meets the disc or is unset (the spec allows any `max_count` of the qualifying
features, chosen deterministically; here the first ones in storage order),
and an invalid layer yields empty sequences. -/
def spec_extractor (files : String → Option GDALDataset) : VectorExtractor where
  open_dataset := fun path => some { dataset := files path }
  get_layer_from_dataset := fun dataset name =>
    match dataset with
    | none => some { layer := none }
    | some d => some { layer := d.layers.lookup name }
  get_features := fun layer =>
    match layer with
    | none => []
    | some l => l.features.map make_feature
  get_features_near_position := fun layer x y radius max_count =>
    match layer with
    | none => []
    | some l => ((l.features.filter (near_or_none x y radius)).take max_count.toNat).map make_feature

/-- A `NativeDataset::get_subdataset` for datasets without sub-datasets: every
name is unknown and yields a null pointer. -/
def no_subdatasets : NativeDataset → String → Option NativeDataset :=
  fun _ _ => none

/-- A dataset store with no files. -/
def no_files : String → Option GDALDataset :=
  fun _ => none

/-- A dataset store whose only file is `map.gpkg`, a dataset without layers. -/
def one_file : String → Option GDALDataset :=
  fun path => if path = "map.gpkg" then some { layers := [] } else none

/-- A raster extractor that has no data anywhere. -/
def empty_raster_extractor : RasterTileExtractor where
  get_tile_from_dataset := fun _ _ _ _ _ _ => none
  get_raster_from_pyramid := fun _ _ _ _ _ _ _ => none

/-- A raster extractor that has one constant tile for every opened dataset and
no pyramid files. -/
def constant_raster_extractor (tile : GeoRaster) : RasterTileExtractor where
  get_tile_from_dataset := fun dataset _ _ _ _ _ => dataset.map fun _ => tile
  get_raster_from_pyramid := fun _ _ _ _ _ _ _ => none

/-- The layer of the scenario: point features at (0,0), (5,0) and (100,0). -/
def three_points : OGRLayer :=
  { features := [⟨1, Geometry.point 0 0⟩, ⟨2, Geometry.point 5 0⟩, ⟨3, Geometry.point 100 0⟩] }

/-- The raw feature the extractor creates for the record `fid` at `(x, y)`. -/
def point_feature (fid : Nat) (x y : Coord) : Feature :=
  { geometry_type := GeometryType.POINT, cls := FeatureClass.PointFeature,
    feature := ⟨fid, Geometry.point x y⟩ }

/-- A vector extractor that yields the same raw features for every layer
handle, null or not, and every query, and opens nothing. -/
def fixed_extractor (raw_features : List Feature) : VectorExtractor where
  open_dataset := fun _ => none
  get_layer_from_dataset := fun _ _ => none
  get_features := fun _ => raw_features
  get_features_near_position := fun _ _ _ _ _ => raw_features

/-- A raw feature is well formed when its dynamic class is the one its
`geometry_type` names. -/
def Feature.well_formed (f : Feature) : Prop :=
  (f.geometry_type = GeometryType.NONE → f.cls = FeatureClass.Feature) ∧
  (f.geometry_type = GeometryType.POINT → f.cls = FeatureClass.PointFeature) ∧
  (f.geometry_type = GeometryType.LINE → f.cls = FeatureClass.LineFeature) ∧
  (f.geometry_type = GeometryType.POLYGON → f.cls = FeatureClass.PolygonFeature)

/-! ## Lemmas on the two loops -/

theorem get_all_features_body_eq (geofeatures : GodotArray) (gdal_feature : Feature) :
    GeoFeatureLayer.get_all_features_body geofeatures gdal_feature =
      geofeatures ++ [{ cls := GeoFeatureClass.GeoFeature, gdal_feature := some gdal_feature }] :=
  rfl

theorem get_all_features_loop (gdal_features : List Feature) (geofeatures : GodotArray) :
    gdal_features.foldl GeoFeatureLayer.get_all_features_body geofeatures =
      geofeatures ++ gdal_features.map fun f =>
        { cls := GeoFeatureClass.GeoFeature, gdal_feature := some f } := by
  induction gdal_features generalizing geofeatures with
  | nil => simp
  | cons f rest ih => simp [List.foldl_cons, ih, get_all_features_body_eq]

theorem near_position_body_append (features : GodotArray) (raw_feature : Feature) :
    GeoFeatureLayer.get_features_near_position_body features raw_feature =
      features ++ GeoFeatureLayer.get_features_near_position_body [] raw_feature := by
  unfold GeoFeatureLayer.get_features_near_position_body GodotArray.push_back
  split_ifs <;> simp

theorem near_position_loop (raw_features : List Feature) (features : GodotArray) :
    raw_features.foldl GeoFeatureLayer.get_features_near_position_body features =
      features ++ raw_features.flatMap (GeoFeatureLayer.get_features_near_position_body []) := by
  induction raw_features generalizing features with
  | nil => simp
  | cons f rest ih =>
    rw [List.foldl_cons, ih, near_position_body_append features f]
    simp [List.flatMap_cons]

/-- What one pass of the dispatch pushes for a raw feature whose geometry type
is one of the four enumerators: exactly one wrapper, of the class paired with
the type, holding the result of the downcast. -/
theorem near_position_body_single (f : Feature)
    (h : f.geometry_type = GeometryType.NONE ∨ f.geometry_type = GeometryType.POINT ∨
      f.geometry_type = GeometryType.LINE ∨ f.geometry_type = GeometryType.POLYGON) :
    ∃ w, GeoFeatureLayer.get_features_near_position_body [] f = [w] ∧
      ((f.geometry_type = GeometryType.NONE ∧ w.cls = GeoFeatureClass.GeoFeature ∧
          w.gdal_feature = some f) ∨
        (f.geometry_type = GeometryType.POINT ∧ w.cls = GeoFeatureClass.GeoPoint ∧
          w.gdal_feature = dynamic_cast FeatureClass.PointFeature f) ∨
        (f.geometry_type = GeometryType.LINE ∧ w.cls = GeoFeatureClass.GeoLine ∧
          w.gdal_feature = dynamic_cast FeatureClass.LineFeature f) ∨
        (f.geometry_type = GeometryType.POLYGON ∧ w.cls = GeoFeatureClass.GeoPolygon ∧
          w.gdal_feature = dynamic_cast FeatureClass.PolygonFeature f)) := by
  unfold GeoFeatureLayer.get_features_near_position_body GodotArray.push_back
  rcases h with h | h | h | h <;>
    simp [h, GeoFeature._new, GeoFeature.set_gdal_feature]

/-- Every wrapper one pass of the dispatch pushes is of the class paired with
the geometry type of the raw feature and holds the result of the downcast. -/
theorem near_position_body_mem (f : Feature) (w : GeoFeature)
    (hw : w ∈ GeoFeatureLayer.get_features_near_position_body [] f) :
    (f.geometry_type = GeometryType.NONE ∧ w.cls = GeoFeatureClass.GeoFeature ∧
        w.gdal_feature = some f) ∨
      (f.geometry_type = GeometryType.POINT ∧ w.cls = GeoFeatureClass.GeoPoint ∧
        w.gdal_feature = dynamic_cast FeatureClass.PointFeature f) ∨
      (f.geometry_type = GeometryType.LINE ∧ w.cls = GeoFeatureClass.GeoLine ∧
        w.gdal_feature = dynamic_cast FeatureClass.LineFeature f) ∨
      (f.geometry_type = GeometryType.POLYGON ∧ w.cls = GeoFeatureClass.GeoPolygon ∧
        w.gdal_feature = dynamic_cast FeatureClass.PolygonFeature f) := by
  unfold GeoFeatureLayer.get_features_near_position_body GodotArray.push_back at hw
  split_ifs at hw with h1 h2 h3 h4 <;>
    simp [GeoFeature._new, GeoFeature.set_gdal_feature] at hw <;>
    subst hw <;> simp [*]

/-- The downcast the dispatch performs succeeds on a well-formed raw feature. -/
theorem held_feature_of_well_formed (f : Feature) (w : GeoFeature) (hf : f.well_formed)
    (hw : w ∈ GeoFeatureLayer.get_features_near_position_body [] f) :
    w.gdal_feature = some f := by
  obtain ⟨h0, h1, h2, h3⟩ := hf
  rcases near_position_body_mem f w hw with h | h | h | h
  · exact h.2.2
  · rw [h.2.2]; simp [dynamic_cast, h1 h.1]
  · rw [h.2.2]; simp [dynamic_cast, h2 h.1]
  · rw [h.2.2]; simp [dynamic_cast, h3 h.1]

theorem make_feature_well_formed (record : OGRFeature) : (make_feature record).well_formed := by
  unfold make_feature Feature.well_formed
  cases record.geometry <;> simp

theorem make_feature_record (record : OGRFeature) : (make_feature record).feature = record := by
  unfold make_feature
  cases record.geometry <;> rfl

/-- One pass of the dispatch pushes nothing exactly for a raw feature whose
geometry type is none of the four enumerators. -/
theorem near_position_body_nil_iff (f : Feature) :
    GeoFeatureLayer.get_features_near_position_body [] f = [] ↔
      ¬ (f.geometry_type = GeometryType.NONE ∨ f.geometry_type = GeometryType.POINT ∨
        f.geometry_type = GeometryType.LINE ∨ f.geometry_type = GeometryType.POLYGON) := by
  unfold GeoFeatureLayer.get_features_near_position_body GodotArray.push_back
  split_ifs with h1 h2 h3 h4 <;> simp [*]

theorem near_position_body_length_le (f : Feature) :
    (GeoFeatureLayer.get_features_near_position_body [] f).length ≤ 1 := by
  unfold GeoFeatureLayer.get_features_near_position_body GodotArray.push_back
  split_ifs <;> simp

theorem near_position_flatMap_length_le (raw_features : List Feature) :
    (raw_features.flatMap (GeoFeatureLayer.get_features_near_position_body [])).length ≤
      raw_features.length := by
  induction raw_features with
  | nil => simp
  | cons f rest ih =>
    have := near_position_body_length_le f
    simp only [List.flatMap_cons, List.length_append, List.length_cons]
    omega

/-! ## Validity of handles -/

/-- C1: for a `GeoDataset` whose native dataset wrapper is present, `is_valid`
returns a value, it returns true exactly when the wrapped raw dataset handle
is non-null and false exactly when it is null; in particular, after
`load_from_file` the dataset reports true exactly when the raw handle of the
wrapper the extractor produced is non-null. -/
theorem GeoDataset_is_valid_iff_raw_handle (g : GeoDataset) (nd : NativeDataset)
    (h : g.dataset = some nd) :
    (∃ b, g.is_valid = some b) ∧
      (g.is_valid = some true ↔ nd.dataset ≠ none) ∧
      (g.is_valid = some false ↔ nd.dataset = none) ∧
      ∀ (ve : VectorExtractor) (self : GeoDataset) (file_path : String),
        ve.open_dataset file_path = some nd →
          ((self.load_from_file ve file_path).is_valid = some true ↔ nd.dataset ≠ none) ∧
          ((self.load_from_file ve file_path).is_valid = some false ↔ nd.dataset = none) := by
  have key : ∀ g' : GeoDataset, g'.dataset = some nd →
      (g'.is_valid = some true ↔ nd.dataset ≠ none) ∧
        (g'.is_valid = some false ↔ nd.dataset = none) := by
    intro g' h'
    unfold GeoDataset.is_valid
    rw [h']
    by_cases hn : nd.dataset = none <;> simp [hn]
  refine ⟨?_, (key g h).1, (key g h).2, ?_⟩
  · unfold GeoDataset.is_valid
    rw [h]
    by_cases hn : nd.dataset = none <;> simp [hn]
  · intro ve self file_path hopen
    exact key _ hopen

theorem GeoDataset_is_valid_iff_raw_handle_witness :
    (GeoDataset.load_from_file (spec_extractor one_file) ⟨none⟩ "missing.gpkg").dataset =
        some ⟨none⟩ ∧
      (GeoDataset.load_from_file (spec_extractor one_file) ⟨none⟩ "missing.gpkg").is_valid =
        some false ∧
      (GeoDataset.load_from_file (spec_extractor one_file) ⟨none⟩ "map.gpkg").is_valid =
        some true :=
  ⟨rfl,
    (GeoDataset_is_valid_iff_raw_handle
      (GeoDataset.load_from_file (spec_extractor one_file) ⟨none⟩ "missing.gpkg") ⟨none⟩
      rfl).2.2.1.mpr rfl,
    (GeoDataset_is_valid_iff_raw_handle
      (GeoDataset.load_from_file (spec_extractor one_file) ⟨none⟩ "map.gpkg") ⟨some ⟨[]⟩⟩
      rfl).2.1.mpr (by simp)⟩

/-- C2: the three layer classes answer `is_valid` with true whatever their
native handle is; the feature layer and the raster layer obtained from a
dataset for an unknown name hold an invalid (null) handle and still report
true. -/
theorem layer_is_valid_ignores_handle :
    (∀ l : GeoFeatureLayer, l.is_valid = true) ∧
      (∀ l : GeoRasterLayer, l.is_valid = true) ∧
      (∀ l : PyramidGeoRasterLayer, l.is_valid = true) ∧
      (GeoDataset.get_feature_layer (spec_extractor no_files) ⟨some ⟨some ⟨[]⟩⟩⟩ "roads").map
          (fun l => (l.layer, l.is_valid)) = some (some ⟨none⟩, true) ∧
      (GeoDataset.get_raster_layer no_subdatasets ⟨some ⟨some ⟨[]⟩⟩⟩ "heights").map
          (fun l => (l.dataset, l.is_valid)) = some (none, true) :=
  ⟨fun _ => rfl, fun _ => rfl, fun _ => rfl, rfl, rfl⟩

/-! ## Feature layers -/

/-- C3, as stated, fails: a feature layer whose native layer pointer is null
gets no result from `get_all_features` nor from `get_features_near_position`,
both dereference the pointer without a check; and with the wrapper present
around a null raw handle nothing in the two members makes the result empty,
the null handle goes to the extractor and what the extractor yields for it
comes back wrapped. -/
theorem null_layer_is_dereferenced :
    GeoFeatureLayer.get_all_features (spec_extractor no_files) ⟨none⟩ = none ∧
      GeoFeatureLayer.get_features_near_position (spec_extractor no_files) ⟨none⟩ 0 0 10 10 =
        none ∧
      GeoFeatureLayer.get_all_features (fixed_extractor [point_feature 1 0 0])
          ⟨some ⟨none⟩⟩ =
        some [{ cls := GeoFeatureClass.GeoFeature,
                gdal_feature := some (point_feature 1 0 0) }] ∧
      GeoFeatureLayer.get_features_near_position (fixed_extractor [point_feature 1 0 0])
          ⟨some ⟨none⟩⟩ 0 0 10 10 =
        some [{ cls := GeoFeatureClass.GeoPoint,
                gdal_feature := some (point_feature 1 0 0) }] :=
  ⟨rfl, rfl, rfl, rfl⟩

/-- C3, amended: for a feature layer whose native layer wrapper is present and
wraps a null raw handle, and for every query, both members return a sequence
as a value: they hand the null handle to the extractor and return one plain
wrapper per raw feature it yields (`get_all_features`), one dispatched wrapper
per raw feature of one of the four geometry types it yields
(`get_features_near_position`). So each returns the empty sequence exactly
when the extractor yields no such feature for the null handle. -/
theorem invalid_layer_forwards_null_handle (ve : VectorExtractor)
    (pos_x pos_y radius : Coord) (max_features : Int) :
    GeoFeatureLayer.get_all_features ve ⟨some ⟨none⟩⟩ =
        some ((ve.get_features none).map fun f =>
          { cls := GeoFeatureClass.GeoFeature, gdal_feature := some f }) ∧
      GeoFeatureLayer.get_features_near_position ve ⟨some ⟨none⟩⟩ pos_x pos_y radius
          max_features =
        some ((ve.get_features_near_position none pos_x pos_y radius max_features).flatMap
          (GeoFeatureLayer.get_features_near_position_body [])) ∧
      (GeoFeatureLayer.get_all_features ve ⟨some ⟨none⟩⟩ = some [] ↔
        ve.get_features none = []) ∧
      (GeoFeatureLayer.get_features_near_position ve ⟨some ⟨none⟩⟩ pos_x pos_y radius
          max_features = some [] ↔
        ∀ f ∈ ve.get_features_near_position none pos_x pos_y radius max_features,
          ¬ (f.geometry_type = GeometryType.NONE ∨ f.geometry_type = GeometryType.POINT ∨
            f.geometry_type = GeometryType.LINE ∨ f.geometry_type = GeometryType.POLYGON)) := by
  have hall : GeoFeatureLayer.get_all_features ve ⟨some ⟨none⟩⟩ =
      some ((ve.get_features none).map fun f =>
        { cls := GeoFeatureClass.GeoFeature, gdal_feature := some f }) := by
    simp [GeoFeatureLayer.get_all_features, get_all_features_loop]
  have hnear : GeoFeatureLayer.get_features_near_position ve ⟨some ⟨none⟩⟩ pos_x pos_y radius
        max_features =
      some ((ve.get_features_near_position none pos_x pos_y radius max_features).flatMap
        (GeoFeatureLayer.get_features_near_position_body [])) := by
    simp [GeoFeatureLayer.get_features_near_position, near_position_loop]
  refine ⟨hall, hnear, ?_, ?_⟩
  · rw [hall]
    simp
  · rw [hnear]
    simp only [Option.some.injEq, List.flatMap_eq_nil_iff]
    exact forall₂_congr fun f _ => near_position_body_nil_iff f

theorem invalid_layer_forwards_null_handle_witness :
    GeoFeatureLayer.get_all_features (spec_extractor no_files) ⟨some ⟨none⟩⟩ = some [] ∧
      GeoFeatureLayer.get_features_near_position (spec_extractor no_files) ⟨some ⟨none⟩⟩
        0 0 10 10 = some [] :=
  ⟨(invalid_layer_forwards_null_handle (spec_extractor no_files) 0 0 10 10).2.2.1.mpr rfl,
    (invalid_layer_forwards_null_handle (spec_extractor no_files) 0 0 10 10).2.2.2.mpr
      (fun _ hf => absurd hf (List.not_mem_nil _))⟩

/-- C9: `crop_lines_to_square` returns the empty sequence for every layer,
every square and every bound. -/
theorem crop_lines_to_square_empty (l : GeoFeatureLayer)
    (top_left_x top_left_y size_meters : Coord) (max_lines : Int) :
    l.crop_lines_to_square top_left_x top_left_y size_meters max_lines = [] :=
  rfl

/-- C10: on a layer whose wrapper is present, `get_all_features` returns one
plain `GeoFeature` wrapper per raw feature of the extractor, in the same
order, the i-th wrapper holding the i-th raw feature whatever its geometry
type is. -/
theorem get_all_features_wraps_each (ve : VectorExtractor) (layer : NativeLayer) :
    ∃ out, GeoFeatureLayer.get_all_features ve ⟨some layer⟩ = some out ∧
      out.length = (ve.get_features layer.layer).length ∧
      (∀ (i : Nat) (f : Feature), (ve.get_features layer.layer)[i]? = some f →
        out[i]? = some { cls := GeoFeatureClass.GeoFeature, gdal_feature := some f }) ∧
      ∀ w ∈ out, w.cls = GeoFeatureClass.GeoFeature := by
  refine ⟨_, rfl, ?_, ?_, ?_⟩
  · simp [get_all_features_loop]
  · intro i f hf
    simp [get_all_features_loop, List.getElem?_map, hf]
  · intro w hw
    simp only [get_all_features_loop, List.nil_append, List.mem_map] at hw
    obtain ⟨f, _, rfl⟩ := hw
    rfl

/-- C4: when every raw feature the extractor produces for the query has one of
the geometry types NONE, POINT, LINE, POLYGON, `get_features_near_position`
(on a layer whose wrapper is present) returns a sequence of the same length in
the same order: its i-th entry is the one wrapper the dispatch creates for the
i-th raw feature, so no raw feature is dropped, and a raw feature of type NONE
is there as a plain `GeoFeature` holding it. -/
theorem near_position_keeps_every_feature (ve : VectorExtractor) (layer : NativeLayer)
    (pos_x pos_y radius : Coord) (max_features : Int)
    (h : ∀ f ∈ ve.get_features_near_position layer.layer pos_x pos_y radius max_features,
      f.geometry_type = GeometryType.NONE ∨ f.geometry_type = GeometryType.POINT ∨
        f.geometry_type = GeometryType.LINE ∨ f.geometry_type = GeometryType.POLYGON) :
    ∃ out,
      GeoFeatureLayer.get_features_near_position ve ⟨some layer⟩ pos_x pos_y radius
        max_features = some out ∧
      out.length =
        (ve.get_features_near_position layer.layer pos_x pos_y radius max_features).length ∧
      ∀ (i : Nat) (f : Feature),
        (ve.get_features_near_position layer.layer pos_x pos_y radius max_features)[i]? =
            some f →
          ∃ w, out[i]? = some w ∧
            GeoFeatureLayer.get_features_near_position_body [] f = [w] ∧
            (f.geometry_type = GeometryType.NONE →
              w = { cls := GeoFeatureClass.GeoFeature, gdal_feature := some f }) ∧
            (f.well_formed → w.gdal_feature = some f) := by
  refine ⟨_, rfl, ?_⟩
  simp only [near_position_loop, List.nil_append]
  generalize ve.get_features_near_position layer.layer pos_x pos_y radius max_features = raw at h
  induction raw with
  | nil => simp
  | cons g rest ih =>
    obtain ⟨w, hw, hpair⟩ := near_position_body_single g (h g (List.mem_cons_self _ _))
    have ih' := ih fun f hf => h f (List.mem_cons_of_mem _ hf)
    rw [List.flatMap_cons, hw]
    refine ⟨by simpa using ih'.1, ?_⟩
    intro i f hf
    cases i with
    | zero =>
      simp only [List.getElem?_cons_zero, Option.some.injEq] at hf
      subst hf
      refine ⟨w, by simp, hw, ?_, ?_⟩
      · intro hnone
        rcases hpair with hp | hp | hp | hp
        · cases w
          simp_all
        all_goals (rw [hnone] at hp; simp at hp)
      · intro hwf
        exact held_feature_of_well_formed g w hwf (by simp [hw])
    | succ j =>
      simp only [List.getElem?_cons_succ] at hf
      obtain ⟨w', hw', rest'⟩ := ih'.2 j f hf
      exact ⟨w', by simpa using hw', rest'⟩

theorem near_position_keeps_every_feature_witness :
    ∃ out,
      GeoFeatureLayer.get_features_near_position (spec_extractor no_files)
        ⟨some ⟨some three_points⟩⟩ 0 0 10 10 = some out ∧
      out.length =
        ((spec_extractor no_files).get_features_near_position (some three_points)
          0 0 10 10).length ∧
      ∀ (i : Nat) (f : Feature),
        ((spec_extractor no_files).get_features_near_position (some three_points)
            0 0 10 10)[i]? = some f →
          ∃ w, out[i]? = some w ∧
            GeoFeatureLayer.get_features_near_position_body [] f = [w] ∧
            (f.geometry_type = GeometryType.NONE →
              w = { cls := GeoFeatureClass.GeoFeature, gdal_feature := some f }) ∧
            (f.well_formed → w.gdal_feature = some f) :=
  near_position_keeps_every_feature (spec_extractor no_files) ⟨some three_points⟩ 0 0 10 10
    (by
      intro f hf
      simp only [spec_extractor, List.mem_map] at hf
      obtain ⟨record, _, rfl⟩ := hf
      unfold make_feature
      cases record.geometry <;> simp)

/-- C5: with the vector extractor of the specification, on every layer whose
wrapper is present, `get_features_near_position` returns at most
`max_features` features (counted as a natural number, so none for a negative
bound), and every returned
wrapper holds a raw feature whose geometry is within distance `radius` of
`(pos_x, pos_y)` or is the None variant (a plain `GeoFeature` of type NONE
without geometry). On the layer with point features at (0,0), (5,0), (100,0),
the query (0, 0, 10, 10) returns the first two and not the third. -/
theorem near_position_bounded_and_near (files : String → Option GDALDataset)
    (layer : NativeLayer) (pos_x pos_y radius : Coord) (max_features : Int) :
    (∃ out,
      GeoFeatureLayer.get_features_near_position (spec_extractor files) ⟨some layer⟩
        pos_x pos_y radius max_features = some out ∧
      out.length ≤ max_features.toNat ∧
      (0 ≤ max_features → (out.length : Int) ≤ max_features) ∧
      ∀ w ∈ out, ∃ f, w.gdal_feature = some f ∧
        (f.feature.geometry.within_distance pos_x pos_y radius = true ∨
          (f.feature.geometry = Geometry.none ∧ f.geometry_type = GeometryType.NONE ∧
            w.cls = GeoFeatureClass.GeoFeature))) ∧
      GeoFeatureLayer.get_features_near_position (spec_extractor files)
          ⟨some ⟨some three_points⟩⟩ 0 0 10 10 =
        some [{ cls := GeoFeatureClass.GeoPoint, gdal_feature := some (point_feature 1 0 0) },
          { cls := GeoFeatureClass.GeoPoint, gdal_feature := some (point_feature 2 5 0) }] := by
  constructor
  · have hlen : ((spec_extractor files).get_features_near_position layer.layer pos_x pos_y
        radius max_features |>.flatMap
          (GeoFeatureLayer.get_features_near_position_body [])).length ≤
        max_features.toNat := by
      refine le_trans (near_position_flatMap_length_le _) ?_
      rcases layer with ⟨_ | l⟩
      · simp [spec_extractor]
      · simp only [spec_extractor, List.length_map, List.length_take]
        exact min_le_left _ _
    refine ⟨_, rfl, ?_, ?_, ?_⟩
    · simpa only [near_position_loop, List.nil_append] using hlen
    · intro hn
      simp only [near_position_loop, List.nil_append]
      omega
    · intro w hw
      simp only [near_position_loop, List.nil_append, List.mem_flatMap] at hw
      obtain ⟨f, hf, hwf⟩ := hw
      rcases layer with ⟨_ | l⟩
      · simp [spec_extractor] at hf
      · simp only [spec_extractor, List.mem_map] at hf
        obtain ⟨record, hrec, rfl⟩ := hf
        have hfilter := List.mem_of_mem_take hrec
        rw [List.mem_filter] at hfilter
        have hnear := hfilter.2
        refine ⟨make_feature record,
          held_feature_of_well_formed _ w (make_feature_well_formed record) hwf, ?_⟩
        rw [make_feature_record]
        unfold near_or_none at hnear
        simp only [Bool.or_eq_true, decide_eq_true_eq] at hnear
        rcases hnear with hnone | hin
        · right
          refine ⟨hnone, ?_, ?_⟩
          · unfold make_feature
            rw [hnone]
          · rcases near_position_body_mem _ w hwf with h | h | h | h
            · exact h.2.1
            all_goals (
              have ht := h.1
              unfold make_feature at ht
              rw [hnone] at ht
              simp at ht)
        · left
          exact hin
  · simp [GeoFeatureLayer.get_features_near_position, spec_extractor, three_points,
      near_or_none, Geometry.within_distance, in_disc, dist_sq, make_feature,
      GeoFeatureLayer.get_features_near_position_body, GodotArray.push_back, GeoFeature._new,
      GeoFeature.set_gdal_feature, dynamic_cast, point_feature, List.filter, List.take]

/-! ## Raster layers -/

/-- C7: on a raster layer whose dataset wrapper is present, `get_image`
returns an image; the image is the fresh image with no raster set exactly when
the raster extractor yields no raster for the requested window, and otherwise
it holds the raster the extractor produced and the requested
`interpolation_type`. -/
theorem get_image_no_data_iff (rte : RasterTileExtractor) (dataset : NativeDataset)
    (top_left_x top_left_y size_meters : Coord) (img_size interpolation_type : Int) :
    ∃ image errors,
      GeoRasterLayer.get_image rte ⟨some dataset⟩ top_left_x top_left_y size_meters img_size
        interpolation_type = some (image, errors) ∧
      (image = GeoImage._new ↔
        rte.get_tile_from_dataset dataset.dataset top_left_x top_left_y size_meters img_size
          interpolation_type = none) ∧
      ∀ raster,
        rte.get_tile_from_dataset dataset.dataset top_left_x top_left_y size_meters img_size
            interpolation_type = some raster →
          image = { raster := some raster, interpolation := some interpolation_type } := by
  cases h : rte.get_tile_from_dataset dataset.dataset top_left_x top_left_y size_meters img_size
      interpolation_type with
  | none =>
    refine ⟨GeoImage._new, [no_valid_data_error], ?_, by simp, by simp⟩
    simp [GeoRasterLayer.get_image, h]
  | some raster =>
    refine ⟨GeoImage._new.set_raster raster interpolation_type, [], ?_, ?_, ?_⟩
    · simp [GeoRasterLayer.get_image, h]
    · simp [GeoImage.set_raster, GeoImage._new]
    · intro r hr
      cases hr
      rfl

theorem get_image_no_data_iff_witness :
    (∃ image errors,
      GeoRasterLayer.get_image (constant_raster_extractor ⟨2, [1, 2, 3, 4]⟩) ⟨some ⟨none⟩⟩
        200 200 50 2 1 = some (image, errors) ∧
      (image = GeoImage._new ↔
        (constant_raster_extractor ⟨2, [1, 2, 3, 4]⟩).get_tile_from_dataset none
          200 200 50 2 1 = none) ∧
      ∀ raster,
        (constant_raster_extractor ⟨2, [1, 2, 3, 4]⟩).get_tile_from_dataset none
            200 200 50 2 1 = some raster →
          image = { raster := some raster, interpolation := some 1 }) ∧
      GeoRasterLayer.get_image (constant_raster_extractor ⟨2, [1, 2, 3, 4]⟩) ⟨some ⟨none⟩⟩
          200 200 50 2 1 = some (GeoImage._new, [no_valid_data_error]) ∧
      GeoRasterLayer.get_image (constant_raster_extractor ⟨2, [1, 2, 3, 4]⟩)
          ⟨some ⟨some ⟨[]⟩⟩⟩ 0 0 50 2 1 =
        some ({ raster := some ⟨2, [1, 2, 3, 4]⟩, interpolation := some 1 }, []) :=
  ⟨get_image_no_data_iff (constant_raster_extractor ⟨2, [1, 2, 3, 4]⟩) ⟨none⟩ 200 200 50 2 1,
    rfl, rfl⟩

/-- C8: when the raster extractor yields no raster for the dataset window and
none for the pyramid, `GeoRasterLayer::get_image` (on a layer whose dataset
wrapper is present) and `PyramidGeoRasterLayer::get_image` return equal
results, the fresh image with no raster set. -/
theorem pyramid_no_data_same_as_raster (rte : RasterTileExtractor) (dataset : NativeDataset)
    (pyramid : PyramidGeoRasterLayer)
    (x y size : Coord) (img_size interpolation_type : Int)
    (px py psize : Coord) (pimg_size pinterpolation_type : Int)
    (hraster : rte.get_tile_from_dataset dataset.dataset x y size img_size
      interpolation_type = none)
    (hpyramid : rte.get_raster_from_pyramid pyramid.path pyramid.ending px py psize pimg_size
      pinterpolation_type = none) :
    GeoRasterLayer.get_image rte ⟨some dataset⟩ x y size img_size interpolation_type =
        some (pyramid.get_image rte px py psize pimg_size pinterpolation_type) ∧
      (pyramid.get_image rte px py psize pimg_size pinterpolation_type).1 = GeoImage._new := by
  unfold GeoRasterLayer.get_image PyramidGeoRasterLayer.get_image
  simp [hraster, hpyramid]

theorem pyramid_no_data_same_as_raster_witness :
    GeoRasterLayer.get_image empty_raster_extractor ⟨some ⟨some ⟨[]⟩⟩⟩ 200 200 50 256 0 =
        some (PyramidGeoRasterLayer.get_image empty_raster_extractor
          { dataset := none, path := "tiles", ending := "png" } 200 200 50 256 0) ∧
      (PyramidGeoRasterLayer.get_image empty_raster_extractor
          { dataset := none, path := "tiles", ending := "png" } 200 200 50 256 0).1 =
        GeoImage._new :=
  pyramid_no_data_same_as_raster empty_raster_extractor ⟨some ⟨[]⟩⟩
    { dataset := none, path := "tiles", ending := "png" } 200 200 50 256 0 200 200 50 256 0
    rfl rfl

end Geodot
